/-
Verification of the KubeComply agent core against its specification.

The Go sources are shallowly embedded:
  * `pkg/scanner` result model (Severity, Finding, ScanSummary, ScanResult,
    ComputeSummary, FilterByThreshold) — section `Scanner`.
  * `pkg/network` analyzer (namespace coverage, default-deny classification)
    — section `Network`.
  * `pkg/rbac` analyzer (wildcard permissions) — section `Rbac`.
  * `pkg/policies` engine (module loading, violation parsing) — section
    `Policies`.
  * `pkg/scanner` orchestrator `Scanner.Run` — section `Run`, with the
    external cluster accessor and policy evaluator modelled as function-
    valued environment fields and I/O calls recorded as an event trace.

Conventions of the embedding:
  * Go `string`-typed enums (Severity, FindingStatus, PolicyType) stay
    strings, so zero values ("") behave exactly as in Go.
  * Go `float64` arithmetic on small counts (scores, percentages) is
    modelled with `Rat`; every value involved is an exact decimal.
  * Go nil-able slices whose nil/non-nil distinction could matter are
    modelled as `Option (List α)`; `goSliceLen` mirrors Go `len`, which
    maps both `nil` and the empty non-nil slice to 0.
  * Prose fields produced by `fmt.Sprintf` with numeric verbs other than
    plain `%d`/`%s` (e.g. `%.0f`, `%v`) are abstracted as `""`; no claim
    depends on their contents.  `%d` on a count is `toString`.
  * Go maps used only as sets/counters keep their meaning: counter maps
    become functions with pointwise update; iteration-ordered maps that
    feed lists are modelled as association lists.
-/
import Mathlib

namespace KubeComply

/-! ## Go string helpers

`strings.HasPrefix` / `strings.HasSuffix` / `strings.TrimSuffix` /
`strings.ReplaceAll` are modelled on the character list so that concrete
instances reduce inside the kernel. -/

/-- Go `strings.HasPrefix`. -/
def startsWithGo (s pre : String) : Bool :=
  pre.data.isPrefixOf s.data

/-- Go `strings.HasSuffix`. -/
def endsWithGo (s suffix : String) : Bool :=
  suffix.data.isSuffixOf s.data

/-! ## Scanner result model (pkg/scanner/types.go, src/unnamed/part_008) -/

/-- Go: `type Severity string`. -/
abbrev Severity := String

def SeverityCritical : Severity := "critical"
def SeverityHigh : Severity := "high"
def SeverityMedium : Severity := "medium"
def SeverityLow : Severity := "low"
def SeverityInfo : Severity := "info"

/-- Go: `SeverityRank` — numeric rank of a severity, higher is more severe,
unknown strings rank 0. -/
def SeverityRank (s : Severity) : Nat :=
  if s = SeverityCritical then 5
  else if s = SeverityHigh then 4
  else if s = SeverityMedium then 3
  else if s = SeverityLow then 2
  else if s = SeverityInfo then 1
  else 0

/-- Go: `ParseSeverity` — lower-cases and matches the five valid values,
errors otherwise. -/
def ParseSeverity (s : String) : Except String Severity :=
  let l := s.toLower
  if l = SeverityCritical then .ok SeverityCritical
  else if l = SeverityHigh then .ok SeverityHigh
  else if l = SeverityMedium then .ok SeverityMedium
  else if l = SeverityLow then .ok SeverityLow
  else if l = SeverityInfo then .ok SeverityInfo
  else .error ("invalid severity: " ++ s)

/-- Go: `Severity.MeetsThreshold`. -/
def Severity.MeetsThreshold (s threshold : Severity) : Bool :=
  SeverityRank s ≥ SeverityRank threshold

/-- Go: `type FindingStatus string`. -/
abbrev FindingStatus := String

def StatusPass : FindingStatus := "PASS"
def StatusFail : FindingStatus := "FAIL"
def StatusWarning : FindingStatus := "WARNING"
def StatusError : FindingStatus := "ERROR"
def StatusSkipped : FindingStatus := "SKIPPED"

/-- Go: `scanner.Finding`.  Timestamps are modelled as `Nat`
(0 = Go zero time, `Timestamp.IsZero()`). -/
structure Finding where
  ID : String := ""
  Title : String := ""
  Description : String := ""
  Severity : Severity := ""
  Status : FindingStatus := ""
  Category : String := ""
  Resource : String := ""
  Namespace : String := ""
  Remediation : String := ""
  Details : List (String × String) := []
  Timestamp : Nat := 0
  deriving Repr, DecidableEq

/-- Go: `scanner.ScanSummary`.  `Score` is `float64` in Go, `Rat` here;
`FindingsBySeverity` is a counter map, modelled as a function. -/
structure ScanSummary where
  TotalChecks : Nat := 0
  PassedChecks : Nat := 0
  FailedChecks : Nat := 0
  WarningCount : Nat := 0
  ErrorCount : Nat := 0
  SkippedCount : Nat := 0
  Score : Rat := 0
  FindingsBySeverity : Severity → Nat := fun _ => 0

/-- Go: `scanner.ScanResult`.  Times and duration are `Nat`. -/
structure ScanResult where
  ID : String := ""
  ScanType : String := ""
  StartTime : Nat := 0
  EndTime : Nat := 0
  Duration : Nat := 0
  ClusterName : String := ""
  Namespaces : List String := []
  Findings : List Finding := []
  Summary : ScanSummary := {}

/-- Go: `scanner.ScanConfig`. -/
structure ScanConfig where
  ScanType : String := ""
  Namespaces : List String := []
  SeverityThreshold : Severity := ""
  PolicyPaths : List String := []
  Kubeconfig : String := ""
  SaaSEndpoint : String := ""
  SaaSToken : String := ""

/-- Pointwise bump of a counter map (Go `m[k]++`). -/
def bumpCount (m : Severity → Nat) (k : Severity) : Severity → Nat :=
  fun s => if s = k then m s + 1 else m s

/-- The loop body of `ComputeSummary`: fold one finding into the summary
(the Go `switch f.Status`). -/
def summaryStep (acc : ScanSummary) (f : Finding) : ScanSummary :=
  let acc := { acc with TotalChecks := acc.TotalChecks + 1 }
  if f.Status = StatusPass then
    { acc with PassedChecks := acc.PassedChecks + 1 }
  else if f.Status = StatusFail then
    { acc with FailedChecks := acc.FailedChecks + 1,
               FindingsBySeverity := bumpCount acc.FindingsBySeverity f.Severity }
  else if f.Status = StatusWarning then
    { acc with WarningCount := acc.WarningCount + 1,
               FindingsBySeverity := bumpCount acc.FindingsBySeverity f.Severity }
  else if f.Status = StatusError then
    { acc with ErrorCount := acc.ErrorCount + 1 }
  else if f.Status = StatusSkipped then
    { acc with SkippedCount := acc.SkippedCount + 1 }
  else
    acc

/-- The summary `ComputeSummary` builds from a finding list: the
accumulation loop followed by the score computation. -/
def summaryOfFindings (findings : List Finding) : ScanSummary :=
  let summary := findings.foldl summaryStep {}
  let actionable := summary.PassedChecks + summary.FailedChecks
  if actionable > 0 then
    { summary with
        Score := (summary.PassedChecks : Rat) / (actionable : Rat) * 100 }
  else
    summary

/-- Go: `(*ScanResult) ComputeSummary` — recompute `r.Summary` from
`r.Findings`.  The Go method mutates the receiver; here it returns the
updated value. -/
def ScanResult.ComputeSummary (r : ScanResult) : ScanResult :=
  { r with Summary := summaryOfFindings r.Findings }

/-- Go: `(*ScanResult) FilterByThreshold` — fresh result with the metadata
fields copied, findings filtered (Pass always retained), summary
recomputed. -/
def ScanResult.FilterByThreshold (r : ScanResult) (threshold : Severity) :
    ScanResult :=
  let filtered : ScanResult :=
    { ID := r.ID
      ScanType := r.ScanType
      StartTime := r.StartTime
      EndTime := r.EndTime
      Duration := r.Duration
      ClusterName := r.ClusterName
      Namespaces := r.Namespaces
      Findings :=
        r.Findings.filter
          (fun f => f.Status = StatusPass ∨ f.Severity.MeetsThreshold threshold) }
  filtered.ComputeSummary

/-! ## Network analyzer (pkg/network/analyzer.go, src/unnamed/part_007) -/

/-- Go `len` on a nil-able slice modelled as `Option (List α)`:
`none` is a nil slice, `some l` a non-nil slice; both empty forms have
length 0. -/
def goSliceLen : Option (List α) → Nat
  | none => 0
  | some l => l.length

/-- K8s `metav1.LabelSelectorRequirement` (contents never inspected by the
analyzer beyond list length). -/
structure LabelSelectorRequirement where
  key : String := ""
  operator : String := ""
  values : List String := []
  deriving Repr, DecidableEq

/-- K8s `metav1.LabelSelector`; `MatchLabels` is a Go `map[string]string`,
only its size is read. -/
structure LabelSelector where
  MatchLabels : List (String × String) := []
  MatchExpressions : List LabelSelectorRequirement := []
  deriving Repr, DecidableEq

/-- K8s `networkingv1.NetworkPolicyIngressRule` — the analyzer never looks
inside a rule, only at how many there are and whether the slice is nil. -/
structure NetworkPolicyIngressRule where
  placeholder : Unit := ()
  deriving Repr, DecidableEq

/-- K8s `networkingv1.NetworkPolicyEgressRule` — likewise opaque. -/
structure NetworkPolicyEgressRule where
  placeholder : Unit := ()
  deriving Repr, DecidableEq

/-- Go: `networkingv1.PolicyType` is a string ("Ingress" / "Egress"). -/
abbrev PolicyType := String

def PolicyTypeIngress : PolicyType := "Ingress"
def PolicyTypeEgress : PolicyType := "Egress"

/-- K8s `networkingv1.NetworkPolicySpec`.  `Ingress`/`Egress` are nil-able
slices: `none` = field absent (nil), `some []` = explicitly present but
empty. -/
structure NetworkPolicySpec where
  PodSelector : LabelSelector := {}
  Ingress : Option (List NetworkPolicyIngressRule) := none
  Egress : Option (List NetworkPolicyEgressRule) := none
  PolicyTypes : List PolicyType := []
  deriving Repr, DecidableEq

/-- K8s `networkingv1.NetworkPolicy` (metadata reduced to name/namespace). -/
structure NetworkPolicy where
  Name : String := ""
  Namespace : String := ""
  Spec : NetworkPolicySpec := {}
  deriving Repr, DecidableEq

/-- Go: `namespacePolicyInfo`. -/
structure namespacePolicyInfo where
  hasIngress : Bool := false
  hasEgress : Bool := false
  policyCount : Nat := 0
  defaultDenyAll : Bool := false
  defaultDenyIngr : Bool := false
  defaultDenyEgr : Bool := false
  deriving Repr, DecidableEq

/-- The inner `for _, pt := range policy.Spec.PolicyTypes` loop body of
`analyzeNamespacePolicies`. -/
def policyTypeStep (isSelectAll : Bool) (policy : NetworkPolicy)
    (info : namespacePolicyInfo) (pt : PolicyType) : namespacePolicyInfo :=
  if pt = PolicyTypeIngress then
    let info := { info with hasIngress := true }
    if isSelectAll ∧ goSliceLen policy.Spec.Ingress = 0 then
      { info with defaultDenyIngr := true }
    else info
  else if pt = PolicyTypeEgress then
    let info := { info with hasEgress := true }
    if isSelectAll ∧ goSliceLen policy.Spec.Egress = 0 then
      { info with defaultDenyEgr := true }
    else info
  else info

/-- The outer `for _, policy := range policies` loop body of
`analyzeNamespacePolicies`. -/
def analyzePolicyStep (info : namespacePolicyInfo) (policy : NetworkPolicy) :
    namespacePolicyInfo :=
  let isSelectAll : Bool :=
    policy.Spec.PodSelector.MatchLabels.length = 0 ∧
      policy.Spec.PodSelector.MatchExpressions.length = 0
  let info := policy.Spec.PolicyTypes.foldl (policyTypeStep isSelectAll policy) info
  if isSelectAll ∧ info.defaultDenyIngr ∧ info.defaultDenyEgr then
    { info with defaultDenyAll := true }
  else info

/-- Go: `analyzeNamespacePolicies` — classify the policies of one
namespace. -/
def analyzeNamespacePolicies (policies : List NetworkPolicy) :
    namespacePolicyInfo :=
  policies.foldl analyzePolicyStep { policyCount := policies.length }

/-- The `systemNS` set local to `checkNamespaceCoverage`. -/
def isSystemNSNet (ns : String) : Bool :=
  ns = "kube-system" ∨ ns = "kube-public" ∨ ns = "kube-node-lease"

/-- The NET-001 per-namespace finding of `checkNamespaceCoverage`. -/
def net001Finding (ns : String) (now : Nat) : Finding :=
  { ID := "NET-001"
    Title := "Namespace has no NetworkPolicies"
    Description := ""
    Severity := SeverityHigh
    Status := StatusFail
    Category := "network"
    Resource := "Namespace/" ++ ns
    Namespace := ns
    Remediation := "Create NetworkPolicies to restrict ingress and egress traffic. Start with a default-deny policy and add explicit allow rules."
    Timestamp := now }

/-- Accumulator of the namespace loop in `checkNamespaceCoverage`. -/
structure CoverageAcc where
  findings : List Finding := []
  coveredCount : Nat := 0
  totalCount : Nat := 0
  deriving Repr, DecidableEq

/-- The `for ns := range scanNS` loop body of `checkNamespaceCoverage`. -/
def coverageStep (nsPolicies : String → List NetworkPolicy) (now : Nat)
    (acc : CoverageAcc) (ns : String) : CoverageAcc :=
  if isSystemNSNet ns then acc
  else
    let acc := { acc with totalCount := acc.totalCount + 1 }
    if (nsPolicies ns).length = 0 then
      { acc with findings := acc.findings ++ [net001Finding ns now] }
    else
      { acc with coveredCount := acc.coveredCount + 1 }

/-- Go: `Analyzer.checkNamespaceCoverage`.  `scanNS` is the key list of the
Go set (no duplicates in Go); `nsPolicies` is the policy index map (a
missing key is a nil slice, i.e. `[]`). -/
def checkNamespaceCoverage (scanNS : List String)
    (nsPolicies : String → List NetworkPolicy) (now : Nat) : List Finding :=
  let acc := scanNS.foldl (coverageStep nsPolicies now) {}
  if acc.totalCount > 0 then
    let coveragePct : Rat := (acc.coveredCount : Rat) / (acc.totalCount : Rat) * 100
    let sevStatus : FindingStatus × Severity :=
      if coveragePct < 50 then (StatusFail, SeverityHigh)
      else if coveragePct < 100 then (StatusWarning, SeverityMedium)
      else (StatusPass, SeverityInfo)
    acc.findings ++
      [{ ID := "NET-002"
         Title := "NetworkPolicy namespace coverage"
         Description := ""
         Severity := sevStatus.2
         Status := sevStatus.1
         Category := "network"
         Details := [("covered", toString acc.coveredCount),
                     ("total", toString acc.totalCount),
                     ("coverage", "")]
         Timestamp := now }]
  else
    acc.findings

/-! ## RBAC analyzer wildcard check (pkg/rbac/analyzer.go) -/

/-- K8s `rbacv1.PolicyRule` (fields the wildcard check reads, plus the
remaining list fields for completeness). -/
structure PolicyRule where
  Verbs : List String := []
  APIGroups : List String := []
  Resources : List String := []
  ResourceNames : List String := []
  NonResourceURLs : List String := []
  deriving Repr, DecidableEq

/-- K8s `rbacv1.ClusterRole` (metadata reduced to the name). -/
structure ClusterRole where
  Name : String := ""
  Rules : List PolicyRule := []
  deriving Repr, DecidableEq

/-- K8s `rbacv1.Role` (metadata reduced to name/namespace). -/
structure Role where
  Name : String := ""
  Namespace : String := ""
  Rules : List PolicyRule := []
  deriving Repr, DecidableEq

/-- Go: `hasWildcard` — whether a string slice contains `"*"`. -/
def hasWildcard (items : List String) : Bool :=
  items.any (· = "*")

/-- The per-ClusterRole body of `checkWildcardPermissions`: skip `system:`
roles, emit at most one finding built from the first wildcarded rule (the
Go loop `break`s after the first match). -/
def clusterRoleWildcardFinding (now : Nat) (cr : ClusterRole) : Option Finding :=
  if startsWithGo cr.Name "system:" then none
  else
    match cr.Rules.find? (fun rule =>
        hasWildcard rule.Verbs || hasWildcard rule.Resources ||
          hasWildcard rule.APIGroups) with
    | none => none
    | some rule =>
        some
          { ID := "RBAC-002"
            Title := "Wildcard permission in ClusterRole"
            Description := ""
            Severity := SeverityHigh
            Status := StatusFail
            Category := "rbac"
            Resource := "ClusterRole/" ++ cr.Name
            Remediation := "Replace wildcard (*) with specific verbs, resources, and API groups following the principle of least privilege."
            Details := [("verbs", String.intercalate "," rule.Verbs),
                        ("resources", String.intercalate "," rule.Resources),
                        ("api_groups", String.intercalate "," rule.APIGroups)]
            Timestamp := now }

/-- The per-Role body of `checkWildcardPermissions`: the namespaced-role
loop tests only verbs and resources. -/
def roleWildcardFinding (now : Nat) (r : Role) : Option Finding :=
  if startsWithGo r.Name "system:" then none
  else
    match r.Rules.find? (fun rule =>
        hasWildcard rule.Verbs || hasWildcard rule.Resources) with
    | none => none
    | some _ =>
        some
          { ID := "RBAC-002"
            Title := "Wildcard permission in Role"
            Description := ""
            Severity := SeverityHigh
            Status := StatusFail
            Category := "rbac"
            Resource := "Role/" ++ r.Namespace ++ "/" ++ r.Name
            Namespace := r.Namespace
            Remediation := "Replace wildcard (*) with specific verbs and resources."
            Timestamp := now }

/-- Go: `Analyzer.checkWildcardPermissions` — the ClusterRole loop followed
by the Role loop, appending to one findings slice. -/
def checkWildcardPermissions (clusterRoles : List ClusterRole)
    (roles : List Role) (now : Nat) : List Finding :=
  clusterRoles.filterMap (clusterRoleWildcardFinding now) ++
    roles.filterMap (roleWildcardFinding now)

/-! ## Policy engine (pkg/policies/engine.go) -/

/-- A Rego source as the engine sees it.  `wellFormed` records whether the
external parser `ast.ParseModule` accepts the text (the parser itself is
outside this repository). -/
structure RegoSource where
  text : String := ""
  wellFormed : Bool := true
  deriving Repr, DecidableEq

/-- The engine's `modules` map (name → source).  A Go map has unique keys;
modelled as an association list with replace-or-append insertion. -/
abbrev ModuleTable := List (String × RegoSource)

/-- Go map assignment `e.modules[name] = source`. -/
def tableInsert (t : ModuleTable) (name : String) (src : RegoSource) :
    ModuleTable :=
  if t.any (fun kv => kv.1 = name) then
    t.map (fun kv => if kv.1 = name then (name, src) else kv)
  else
    t ++ [(name, src)]

/-- Go `strings.TrimSuffix`. -/
def goTrimSuffix (s suffix : String) : String :=
  if endsWithGo s suffix then
    String.mk (s.data.take (s.data.length - suffix.data.length))
  else s

/-- Module name for a loaded file: relative path minus `.rego`, path
separators replaced by dots. -/
def moduleNameOf (relPath : String) : String :=
  String.mk ((goTrimSuffix relPath ".rego").data.map
    (fun c => if c = '/' then '.' else c))

/-- One entry delivered by `filepath.WalkDir`: its path relative to the
root, whether it is a directory, and the outcome of reading it. -/
structure DirEntry where
  path : String := ""
  isDir : Bool := false
  read : Except String RegoSource := .ok {}

/-- A policy directory as `LoadFromDirectory` probes it: the `os.Stat`
outcome and the walk entries. -/
structure PolicyDir where
  statError : Option String := none
  isDir : Bool := true
  entries : List DirEntry := []

/-- The `filepath.WalkDir` callback loop of `LoadFromDirectory`: skip
directories, non-`.rego` files and `_test.rego` files; a read error aborts
the walk; otherwise store the source under its module name — with no
syntax validation. -/
def walkEntries : ModuleTable → List DirEntry → Except String ModuleTable
  | mods, [] => .ok mods
  | mods, d :: rest =>
    if d.isDir ∨ ¬ endsWithGo d.path ".rego" then walkEntries mods rest
    else if endsWithGo d.path "_test.rego" then walkEntries mods rest
    else
      match d.read with
      | .error e => .error ("reading policy " ++ d.path ++ ": " ++ e)
      | .ok src => walkEntries (tableInsert mods (moduleNameOf d.path) src) rest

/-- Go: `Engine.LoadFromDirectory` — stat the directory, then walk it. -/
def LoadFromDirectory (mods : ModuleTable) (dir : PolicyDir) :
    Except String ModuleTable :=
  match dir.statError with
  | some e => .error ("policy directory: " ++ e)
  | none =>
    if ¬ dir.isDir then .error "policy path is not a directory"
    else walkEntries mods dir.entries

/-- Go: `Engine.LoadInlinePolicy` — validate with `ast.ParseModule` first;
a malformed source is rejected and the module table is left unchanged. -/
def LoadInlinePolicy (mods : ModuleTable) (name : String) (src : RegoSource) :
    Except String ModuleTable :=
  if src.wellFormed then .ok (tableInsert mods name src)
  else .error ("invalid rego in policy " ++ name)

/-- Go: `policies.CheckResult`. -/
structure CheckResult where
  ID : String := ""
  Title : String := ""
  Description : String := ""
  Severity : Severity := ""
  Passed : Bool := false
  Message : String := ""
  Resource : String := ""
  Namespace : String := ""
  Remediation : String := ""
  Category : String := ""
  deriving Repr, DecidableEq

/-- Go: `(*CheckResult) ToFinding`. -/
def CheckResult.ToFinding (cr : CheckResult) : Finding :=
  { ID := cr.ID
    Title := cr.Title
    Description := cr.Description
    Severity := cr.Severity
    Status := if cr.Passed then StatusPass else StatusFail
    Category := cr.Category
    Resource := cr.Resource
    Namespace := cr.Namespace
    Remediation := cr.Remediation
    Details := [("message", cr.Message)]
    Timestamp := 0 }

/-- A decoded Go `interface{}` value as OPA hands it back (JSON shapes). -/
inductive GoVal where
  | str (s : String)
  | num (q : Rat)
  | boolean (b : Bool)
  | null
  | arr (elems : List GoVal)
  | obj (fields : List (String × GoVal))

/-- Go `obj[key].(string)`: the key is present and its value is a string. -/
def objLookupStr (fields : List (String × GoVal)) (key : String) :
    Option String :=
  match fields.lookup key with
  | some (.str s) => some s
  | _ => none

/-- Go: `Engine.parseViolation` — decode one violation value.  Objects are
read field by field (severity defaulting to medium when absent or
unparsable); bare strings become a generic medium violation; any other
shape is an error. -/
def parseViolation (v : GoVal) : Except String CheckResult :=
  match v with
  | .str msg =>
      .ok { Title := "Policy Violation", Message := msg, Passed := false,
            Severity := SeverityMedium }
  | .obj fields =>
      let cr : CheckResult := { Passed := false }
      let cr := match objLookupStr fields "id" with
        | some id => { cr with ID := id }
        | none => cr
      let cr := match objLookupStr fields "title" with
        | some title => { cr with Title := title }
        | none => cr
      let cr := match objLookupStr fields "msg" with
        | some msg => { cr with Message := msg }
        | none => cr
      let cr := match objLookupStr fields "description" with
        | some desc => { cr with Description := desc }
        | none => cr
      let cr := match objLookupStr fields "severity" with
        | some sev =>
            match ParseSeverity sev with
            | .ok parsed => { cr with Severity := parsed }
            | .error _ => cr
        | none => cr
      let cr := if cr.Severity = "" then { cr with Severity := SeverityMedium }
        else cr
      let cr := match objLookupStr fields "resource" with
        | some res => { cr with Resource := res }
        | none => cr
      let cr := match objLookupStr fields "namespace" with
        | some ns => { cr with Namespace := ns }
        | none => cr
      let cr := match objLookupStr fields "remediation" with
        | some rem => { cr with Remediation := rem }
        | none => cr
      let cr := match objLookupStr fields "category" with
        | some cat => { cr with Category := cat }
        | none => cr
      .ok cr
  | _ => .error "violation is not a map"

/-! ## Scanner orchestrator (pkg/scanner/scanner.go, second half of the
file holding the PSS checker)

`Scanner.Run` talks to the cluster accessor and the policy evaluator; both
are modelled as function-valued environment fields, and every outbound
call is recorded in an event trace so that statements about I/O ordering
can be made. -/

/-- An opaque JSON-shaped resource as returned by the listers. -/
abbrev Res := String

/-- Go: `scanner.PolicyCheckResult` (mirror of `policies.CheckResult`). -/
structure PolicyCheckResult where
  ID : String := ""
  Title : String := ""
  Description : String := ""
  Severity : Severity := ""
  Passed : Bool := false
  Message : String := ""
  Resource : String := ""
  Namespace : String := ""
  Remediation : String := ""
  Category : String := ""
  deriving Repr, DecidableEq

/-- Go: `(*PolicyCheckResult) ToFinding`. -/
def PolicyCheckResult.ToFinding (cr : PolicyCheckResult) : Finding :=
  { ID := cr.ID
    Title := cr.Title
    Description := cr.Description
    Severity := cr.Severity
    Status := if cr.Passed then StatusPass else StatusFail
    Category := cr.Category
    Resource := cr.Resource
    Namespace := cr.Namespace
    Remediation := cr.Remediation
    Details := [("message", cr.Message)]
    Timestamp := 0 }

/-- One outbound call of a scan run (I/O performed against the cluster,
the filesystem, or the policy evaluator). -/
inductive Ev where
  | resolveNamespaces
  | loadPolicyDir (path : String)
  | listPodsJSON (ns : String)
  | listDeploymentsJSON (ns : String)
  | evalResource (ns : String)
  | analyzerRun (name : String)
  deriving Repr, DecidableEq

/-- The `PolicyEvaluator` interface as `Run` consumes it. -/
structure PolicyEvalSim where
  moduleCount : Nat := 0
  loadFromDirectory : String → Except String Unit := fun _ => .ok ()
  evaluateResource : Res → String → String → Except String (List PolicyCheckResult) :=
    fun _ _ _ => .ok []

/-- The environment of one run: the `ResourceLister`, the optional policy
evaluator, the analyzer registry, and the two `time.Now()` readings. -/
structure ScanEnv where
  clusterName : String := ""
  namespacesForScan : List String → Bool → Except String (List String) :=
    fun req _ => .ok req
  listPodsJSON : String → Except String (List Res) := fun _ => .ok []
  listDeploymentsJSON : String → Except String (List Res) := fun _ => .ok []
  policyEvaluator : Option PolicyEvalSim := none
  analyzers : List (String × (List String → Except String (List Finding))) := []
  startTime : Nat := 0
  endTime : Nat := 0

/-- Resource/namespace defaulting applied to each check inside
`runOPAPolicies` before `ToFinding`. -/
def defaultedFinding (defaultResource ns : String)
    (check : PolicyCheckResult) : Finding :=
  let check := if check.Resource = "" then { check with Resource := defaultResource }
    else check
  let check := if check.Namespace = "" then { check with Namespace := ns }
    else check
  check.ToFinding

/-- The inner `for i, pod := range pods` (resp. deployments) loop of
`runOPAPolicies`: evaluate each resource, skipping evaluation failures. -/
def evalResources (pe : PolicyEvalSim) (ns : String) (resources : List Res)
    (mkDefault : Nat → String) : List Ev × List Finding :=
  resources.enum.foldl
    (fun acc iRes =>
      match pe.evaluateResource iRes.2 ns "data.compliance.violations" with
      | .error _ => (acc.1 ++ [Ev.evalResource ns], acc.2)
      | .ok checks =>
          (acc.1 ++ [Ev.evalResource ns],
           acc.2 ++ checks.map (defaultedFinding (mkDefault iRes.1) ns)))
    ([], [])

/-- The per-namespace body of `runOPAPolicies`: list pods (a failure
`continue`s to the next namespace), evaluate them, list deployments
(likewise), evaluate them. -/
def runOPAPerNamespace (env : ScanEnv) (pe : PolicyEvalSim) (ns : String) :
    List Ev × List Finding :=
  match env.listPodsJSON ns with
  | .error _ => ([Ev.listPodsJSON ns], [])
  | .ok pods =>
    let podEval := evalResources pe ns pods
      (fun i => "Pod/" ++ ns ++ "/pod-" ++ toString i)
    match env.listDeploymentsJSON ns with
    | .error _ =>
        ([Ev.listPodsJSON ns] ++ podEval.1 ++ [Ev.listDeploymentsJSON ns],
         podEval.2)
    | .ok deps =>
      let depEval := evalResources pe ns deps
        (fun i => "Deployment/" ++ ns ++ "/deploy-" ++ toString i)
      ([Ev.listPodsJSON ns] ++ podEval.1 ++ [Ev.listDeploymentsJSON ns] ++ depEval.1,
       podEval.2 ++ depEval.2)

/-- Go: `Scanner.runOPAPolicies` — a no-op without an evaluator or with
zero modules loaded. -/
def runOPAPolicies (env : ScanEnv) (namespaces : List String) :
    List Ev × List Finding :=
  match env.policyEvaluator with
  | none => ([], [])
  | some pe =>
    if pe.moduleCount = 0 then ([], [])
    else
      namespaces.foldl
        (fun acc ns =>
          let r := runOPAPerNamespace env pe ns
          (acc.1 ++ r.1, acc.2 ++ r.2))
        ([], [])

/-- Go: `Scanner.runAnalyzer` — a missing registration is a silent no-op;
an analyzer error is returned to the caller. -/
def runAnalyzer (env : ScanEnv) (namespaces : List String) (name : String) :
    List Ev × Except String (List Finding) :=
  match env.analyzers.lookup name with
  | none => ([], .ok [])
  | some analyze => ([Ev.analyzerRun name], analyze namespaces)

/-- Go: `Scanner.runAnalyzers` — run several analyzers sequentially,
logging (dropping) individual errors. -/
def runAnalyzersSeq (env : ScanEnv) (namespaces : List String)
    (names : List String) : List Ev × List Finding :=
  names.foldl
    (fun acc name =>
      let r := runAnalyzer env namespaces name
      match r.2 with
      | .error _ => (acc.1 ++ r.1, acc.2)
      | .ok fs => (acc.1 ++ r.1, acc.2 ++ fs))
    ([], [])

/-- The finalization loop of `Run`: stamp findings lacking a timestamp
with the run's end time. -/
def stampFindings (endTime : Nat) (fs : List Finding) : List Finding :=
  fs.map (fun f => if f.Timestamp = 0 then { f with Timestamp := endTime } else f)

/-- Go: `Scanner.Run`.  Returns the trace of outbound calls alongside the
outcome.  The control flow mirrors the source: resolve namespaces (fatal
on failure), best-effort-load extra policy directories, dispatch on the
scan type (unknown types error out), then finalize: stamp timestamps,
compute the summary, and apply the threshold filter when one is set. -/
def ScannerRun (env : ScanEnv) (config : ScanConfig) :
    List Ev × Except String ScanResult :=
  let result0 : ScanResult :=
    { ID := "scan-" ++ toString env.startTime
      ScanType := config.ScanType
      StartTime := env.startTime
      ClusterName := env.clusterName }
  match env.namespacesForScan config.Namespaces false with
  | .error e => ([Ev.resolveNamespaces], .error ("resolving namespaces: " ++ e))
  | .ok namespaces =>
    let result0 := { result0 with Namespaces := namespaces }
    let loadEvents : List Ev :=
      match env.policyEvaluator with
      | none => []
      | some _ => config.PolicyPaths.map Ev.loadPolicyDir
    let pre : List Ev := Ev.resolveNamespaces :: loadEvents
    let dispatch : List Ev × Except String (List Finding) :=
      if config.ScanType = "full" then
        let opa := runOPAPolicies env namespaces
        let ana := runAnalyzersSeq env namespaces ["rbac", "network", "pss"]
        (opa.1 ++ ana.1, .ok (opa.2 ++ ana.2))
      else if config.ScanType = "cis" then
        let opa := runOPAPolicies env namespaces
        (opa.1, .ok opa.2)
      else if config.ScanType = "rbac" then
        let r := runAnalyzer env namespaces "rbac"
        (r.1, r.2.mapError (fun e => "RBAC analysis: " ++ e))
      else if config.ScanType = "network" then
        let r := runAnalyzer env namespaces "network"
        (r.1, r.2.mapError (fun e => "network analysis: " ++ e))
      else if config.ScanType = "pss" then
        let r := runAnalyzer env namespaces "pss"
        (r.1, r.2.mapError (fun e => "PSS check: " ++ e))
      else
        ([], .error ("unknown scan type: \"" ++ config.ScanType ++
          "\" (valid: full, cis, rbac, network, pss)"))
    match dispatch.2 with
    | .error e => (pre ++ dispatch.1, .error e)
    | .ok findings =>
      let result :=
        { result0 with
            EndTime := env.endTime
            Duration := env.endTime - env.startTime
            Findings := stampFindings env.endTime findings }
      let result := result.ComputeSummary
      let result :=
        if config.SeverityThreshold ≠ "" then
          result.FilterByThreshold config.SeverityThreshold
        else result
      (pre ++ dispatch.1, .ok result)

/-! ## Concrete fixtures used by counterexamples and witnesses -/

/-- A pass finding (info severity). -/
def passInfoFinding : Finding :=
  { ID := "X-PASS", Severity := SeverityInfo, Status := StatusPass }

/-- A fail finding of low severity. -/
def failLowFinding : Finding :=
  { ID := "X-FAIL", Severity := SeverityLow, Status := StatusFail }

/-- A policy index covering exactly namespace "ns-a" (one default policy). -/
def indexOnlyNsA : String → List NetworkPolicy :=
  fun ns => if ns = "ns-a" then [{}] else []

/-- A policy index covering exactly namespace "dev" (one default policy). -/
def indexOnlyDev : String → List NetworkPolicy :=
  fun ns => if ns = "dev" then [{}] else []

/-- A NetworkPolicy with an empty pod selector, policy type Ingress, and an
explicitly present but empty ingress rule list (`ingress: []`, a non-nil
empty slice). -/
def emptyIngressListPolicy : NetworkPolicy :=
  { Name := "deny-ingress-explicit"
    Namespace := "dev"
    Spec := { PolicyTypes := [PolicyTypeIngress], Ingress := some [] } }

/-- A NetworkPolicy with an empty pod selector, policy type Ingress, and no
ingress field at all (nil slice). -/
def absentIngressPolicy : NetworkPolicy :=
  { Name := "deny-ingress-absent"
    Namespace := "dev"
    Spec := { PolicyTypes := [PolicyTypeIngress], Ingress := none } }

/-- A namespaced Role whose only wildcard sits in the API-groups list. -/
def apiGroupWildcardRole : Role :=
  { Name := "apigroup-wild"
    Namespace := "ns1"
    Rules := [{ Verbs := ["get"], APIGroups := ["*"], Resources := ["pods"] }] }

/-- A ClusterRole with two wildcarded rules. -/
def doubleWildcardClusterRole : ClusterRole :=
  { Name := "double-wild"
    Rules := [{ Verbs := ["*"], APIGroups := [""], Resources := ["pods"] },
              { Verbs := ["get"], APIGroups := [""], Resources := ["*"] }] }

/-- A malformed Rego source (`ast.ParseModule` rejects it). -/
def malformedRego : RegoSource :=
  { text := "package broken (", wellFormed := false }

/-- The result `parseViolation` builds for a bare-string violation. -/
def bareStringResult (s : String) : CheckResult :=
  { Title := "Policy Violation", Message := s, Passed := false,
    Severity := SeverityMedium }

/-- Whether an `Except` is an error. -/
def exceptIsError : Except ε α → Bool
  | .error _ => true
  | .ok _ => false

/-- Environment for the unknown-scan-type counterexample: namespace
resolution succeeds, a policy evaluator is present. -/
def bogusRunEnv : ScanEnv :=
  { clusterName := "test-cluster"
    namespacesForScan := fun _ _ => .ok ["default"]
    policyEvaluator := some { moduleCount := 1 } }

/-- Config with an unknown scan type and one extra policy path. -/
def bogusRunConfig : ScanConfig :=
  { ScanType := "bogus", PolicyPaths := ["extra"] }

/-! ## Helper lemmas: ComputeSummary -/

theorem summaryStep_passedChecks (acc : ScanSummary) (f : Finding) :
    (summaryStep acc f).PassedChecks =
      acc.PassedChecks + if f.Status = StatusPass then 1 else 0 := by
  simp only [summaryStep]
  split_ifs <;> simp_all

theorem summaryStep_failedChecks (acc : ScanSummary) (f : Finding) :
    (summaryStep acc f).FailedChecks =
      acc.FailedChecks + if f.Status = StatusFail then 1 else 0 := by
  simp only [summaryStep]
  split_ifs <;> simp_all [StatusPass, StatusFail]

theorem summaryStep_score (acc : ScanSummary) (f : Finding) :
    (summaryStep acc f).Score = acc.Score := by
  simp only [summaryStep]
  split_ifs <;> simp_all

theorem foldl_summaryStep_passedChecks (fs : List Finding) (acc : ScanSummary) :
    (fs.foldl summaryStep acc).PassedChecks =
      acc.PassedChecks + (fs.filter (fun f => f.Status = StatusPass)).length := by
  induction fs generalizing acc with
  | nil => simp
  | cons f fs ih =>
    rw [List.foldl_cons, ih, summaryStep_passedChecks, List.filter_cons]
    by_cases h : f.Status = StatusPass
    · simp [h]
      omega
    · simp [h]

theorem foldl_summaryStep_failedChecks (fs : List Finding) (acc : ScanSummary) :
    (fs.foldl summaryStep acc).FailedChecks =
      acc.FailedChecks + (fs.filter (fun f => f.Status = StatusFail)).length := by
  induction fs generalizing acc with
  | nil => simp
  | cons f fs ih =>
    rw [List.foldl_cons, ih, summaryStep_failedChecks, List.filter_cons]
    by_cases h : f.Status = StatusFail
    · simp [h]
      omega
    · simp [h]

theorem foldl_summaryStep_score (fs : List Finding) (acc : ScanSummary) :
    (fs.foldl summaryStep acc).Score = acc.Score := by
  induction fs generalizing acc with
  | nil => rfl
  | cons f fs ih => rw [List.foldl_cons, ih, summaryStep_score]

/-! ## Claim theorems: result model -/

/-- C1.  After `ComputeSummary` runs, `PassedChecks`/`FailedChecks` are
exactly the numbers of Pass/Fail findings (warning, error and skipped
findings enter neither), and `Score` is
`PassedChecks/(PassedChecks+FailedChecks)*100` when at least one pass or
fail finding exists and `0` otherwise. -/
theorem computeSummary_score_spec (r : ScanResult) :
    (r.ComputeSummary.Summary.PassedChecks =
      (r.Findings.filter (fun f => f.Status = StatusPass)).length) ∧
    (r.ComputeSummary.Summary.FailedChecks =
      (r.Findings.filter (fun f => f.Status = StatusFail)).length) ∧
    (r.ComputeSummary.Summary.Score =
      if 0 < r.ComputeSummary.Summary.PassedChecks +
          r.ComputeSummary.Summary.FailedChecks then
        (r.ComputeSummary.Summary.PassedChecks : Rat) /
          ((r.ComputeSummary.Summary.PassedChecks : Rat) +
            (r.ComputeSummary.Summary.FailedChecks : Rat)) * 100
      else 0) := by
  have hproj : ∀ (s : ScanSummary) (x : Rat),
      ({ s with Score := x } : ScanSummary).Score = x := fun _ _ => rfl
  have hps : (summaryOfFindings r.Findings).PassedChecks =
      (r.Findings.foldl summaryStep {}).PassedChecks := by
    simp only [summaryOfFindings]
    split_ifs <;> rfl
  have hfs : (summaryOfFindings r.Findings).FailedChecks =
      (r.Findings.foldl summaryStep {}).FailedChecks := by
    simp only [summaryOfFindings]
    split_ifs <;> rfl
  have hp : r.ComputeSummary.Summary.PassedChecks =
      (r.Findings.filter (fun f => f.Status = StatusPass)).length := by
    show (summaryOfFindings r.Findings).PassedChecks = _
    rw [hps, foldl_summaryStep_passedChecks]
    simp
  have hf : r.ComputeSummary.Summary.FailedChecks =
      (r.Findings.filter (fun f => f.Status = StatusFail)).length := by
    show (summaryOfFindings r.Findings).FailedChecks = _
    rw [hfs, foldl_summaryStep_failedChecks]
    simp
  refine ⟨hp, hf, ?_⟩
  have hps2 : r.ComputeSummary.Summary.PassedChecks =
      (r.Findings.foldl summaryStep {}).PassedChecks := hps
  have hfs2 : r.ComputeSummary.Summary.FailedChecks =
      (r.Findings.foldl summaryStep {}).FailedChecks := hfs
  rw [hps2, hfs2]
  show (summaryOfFindings r.Findings).Score = _
  simp only [summaryOfFindings]
  rcases Nat.eq_zero_or_pos ((r.Findings.foldl summaryStep {}).PassedChecks +
      (r.Findings.foldl summaryStep {}).FailedChecks) with h | h
  · rw [if_neg (by omega), if_neg (by omega), foldl_summaryStep_score]
  · rw [if_pos h, if_pos h, hproj]
    push_cast
    ring

/-- C2.  `FilterByThreshold t` retains a finding iff its status is Pass or
its severity rank meets the threshold rank, and applying the filter twice
with the same threshold yields the same finding list as applying it
once. -/
theorem filterByThreshold_retention_idempotent (r : ScanResult) (t : Severity) :
    (∀ f : Finding, f ∈ (r.FilterByThreshold t).Findings ↔
      (f ∈ r.Findings ∧
        (f.Status = StatusPass ∨ SeverityRank f.Severity ≥ SeverityRank t))) ∧
    ((r.FilterByThreshold t).FilterByThreshold t).Findings =
      (r.FilterByThreshold t).Findings := by
  have hfind : ∀ (s : ScanResult),
      (s.FilterByThreshold t).Findings =
        s.Findings.filter
          (fun f => decide (f.Status = StatusPass ∨ f.Severity.MeetsThreshold t)) :=
    fun s => rfl
  constructor
  · intro f
    rw [hfind, List.mem_filter]
    simp [Severity.MeetsThreshold]
  · rw [hfind, hfind, List.filter_filter]
    simp

/-- C10.  `FilterByThreshold` copies the metadata fields (id, scan type,
times, duration, cluster name, namespaces) unchanged into the fresh
result — the receiver itself is untouched (the embedding is pure; the Go
method writes only to the freshly allocated result) — while the returned
summary is recomputed from the retained findings alone, so the filtered
score can differ from the original. -/
theorem filterByThreshold_frame_spec :
    (∀ (r : ScanResult) (t : Severity),
      (r.FilterByThreshold t).ID = r.ID ∧
      (r.FilterByThreshold t).ScanType = r.ScanType ∧
      (r.FilterByThreshold t).StartTime = r.StartTime ∧
      (r.FilterByThreshold t).EndTime = r.EndTime ∧
      (r.FilterByThreshold t).Duration = r.Duration ∧
      (r.FilterByThreshold t).ClusterName = r.ClusterName ∧
      (r.FilterByThreshold t).Namespaces = r.Namespaces ∧
      (r.FilterByThreshold t).Summary =
        summaryOfFindings (r.FilterByThreshold t).Findings) ∧
    (∃ (r : ScanResult) (t : Severity),
      (r.FilterByThreshold t).Summary.Score ≠ r.Summary.Score) := by
  constructor
  · intro r t
    exact ⟨rfl, rfl, rfl, rfl, rfl, rfl, rfl, rfl⟩
  · refine ⟨({ Findings := [passInfoFinding, failLowFinding] } :
        ScanResult).ComputeSummary, SeverityHigh, ?_⟩
    have h1 : (({ Findings := [passInfoFinding, failLowFinding] } :
        ScanResult).ComputeSummary.FilterByThreshold SeverityHigh).Summary.Score
          = 100 := by
      simp [ScanResult.FilterByThreshold, ScanResult.ComputeSummary,
        summaryOfFindings, summaryStep, passInfoFinding, failLowFinding,
        StatusPass, StatusFail, Severity.MeetsThreshold, SeverityRank,
        SeverityLow, SeverityHigh, SeverityInfo, SeverityCritical,
        SeverityMedium]
    have h2 : ({ Findings := [passInfoFinding, failLowFinding] } :
        ScanResult).ComputeSummary.Summary.Score = 50 := by
      simp [ScanResult.ComputeSummary, summaryOfFindings, summaryStep,
        passInfoFinding, failLowFinding, StatusPass, StatusFail]
      norm_num
    rw [h1, h2]
    norm_num

/-! ## Helper lemmas: namespace coverage -/

theorem coverage_fold_totalCount (scanNS : List String)
    (pol : String → List NetworkPolicy) (now : Nat) (acc : CoverageAcc) :
    (scanNS.foldl (coverageStep pol now) acc).totalCount =
      acc.totalCount + (scanNS.filter (fun ns => ¬ isSystemNSNet ns)).length := by
  induction scanNS generalizing acc with
  | nil => simp
  | cons ns rest ih =>
    rw [List.foldl_cons, ih, List.filter_cons]
    by_cases h : isSystemNSNet ns
    · simp [coverageStep, h]
    · by_cases h2 : (pol ns).length = 0 <;> simp [coverageStep, h, h2] <;> omega

theorem coverage_fold_coveredCount (scanNS : List String)
    (pol : String → List NetworkPolicy) (now : Nat) (acc : CoverageAcc) :
    (scanNS.foldl (coverageStep pol now) acc).coveredCount =
      acc.coveredCount +
        (scanNS.filter (fun ns => ¬ isSystemNSNet ns ∧ pol ns ≠ [])).length := by
  induction scanNS generalizing acc with
  | nil => simp
  | cons ns rest ih =>
    rw [List.foldl_cons, ih, List.filter_cons]
    by_cases h : isSystemNSNet ns
    · simp [coverageStep, h]
    · by_cases h2 : (pol ns).length = 0
      · simp [coverageStep, h, h2, List.length_eq_zero.mp h2]
      · have hne : pol ns ≠ [] := by
          intro hc
          simp [hc] at h2
        simp [coverageStep, h, h2, hne]
        omega

theorem coverage_fold_findings_id (scanNS : List String)
    (pol : String → List NetworkPolicy) (now : Nat) (acc : CoverageAcc) :
    ∀ f ∈ (scanNS.foldl (coverageStep pol now) acc).findings,
      f ∈ acc.findings ∨ f.ID = "NET-001" := by
  induction scanNS generalizing acc with
  | nil => exact fun f hf => Or.inl hf
  | cons ns rest ih =>
    intro f hf
    rw [List.foldl_cons] at hf
    rcases ih (coverageStep pol now acc ns) f hf with h | h
    · simp only [coverageStep] at h
      split_ifs at h with h1 h2
      · exact Or.inl h
      · simp only [List.mem_append, List.mem_singleton] at h
        rcases h with h | h
        · exact Or.inl h
        · exact Or.inr (by rw [h]; rfl)
      · exact Or.inl h
    · exact Or.inr h

theorem coverage_fold_system_id (scanNS : List String)
    (pol : String → List NetworkPolicy) (now : Nat) (acc : CoverageAcc) :
    (∀ ns ∈ scanNS, isSystemNSNet ns = true) →
      scanNS.foldl (coverageStep pol now) acc = acc := by
  induction scanNS generalizing acc with
  | nil => exact fun _ => rfl
  | cons ns rest ih =>
    intro h
    rw [List.foldl_cons]
    have hns : isSystemNSNet ns = true := h ns (by simp)
    rw [show coverageStep pol now acc ns = acc by simp [coverageStep, hns]]
    exact ih acc (fun m hm => h m (by simp [hm]))

/-! ## Claim theorems: network coverage -/

/-- C4 counterexample.  With five user namespaces of which one is covered,
coverage is 20% (< 25), yet the NET-002 coverage finding carries severity
`high`, not the `critical` the claimed band `< 25 ⇒ critical` demands. -/
theorem coverage_band_counterexample :
    (((checkNamespaceCoverage ["ns-a", "ns-b", "ns-c", "ns-d", "ns-e"]
        indexOnlyNsA 7).filter (fun f => f.ID = "NET-002")).map
          (fun f => (f.Severity, f.Status)) =
      [(SeverityHigh, StatusFail)]) ∧ SeverityHigh ≠ SeverityCritical := by
  constructor
  · have hacc : (["ns-a", "ns-b", "ns-c", "ns-d", "ns-e"].foldl
        (coverageStep indexOnlyNsA 7) {}) =
        { findings := [net001Finding "ns-b" 7, net001Finding "ns-c" 7,
                       net001Finding "ns-d" 7, net001Finding "ns-e" 7],
          coveredCount := 1, totalCount := 5 } := by decide
    simp only [checkNamespaceCoverage, hacc]
    norm_num [net001Finding, SeverityHigh, SeverityMedium, SeverityInfo,
      StatusFail, StatusWarning, StatusPass]
    decide
  · decide

/-- C4 (amended).  The coverage finding uses three bands, not five:
coverage < 50 ⇒ fail/high, 50 ≤ coverage < 100 ⇒ warning/medium,
coverage = 100 ⇒ pass/info — and in particular with two user namespaces of
which exactly one has a NetworkPolicy, coverage is 50% and the finding has
severity medium and status warning. -/
theorem coverage_bands_spec :
    (∀ (scanNS : List String) (pol : String → List NetworkPolicy) (now : Nat),
      0 < (scanNS.filter (fun ns => ¬ isSystemNSNet ns)).length →
      ((checkNamespaceCoverage scanNS pol now).filter
          (fun f => f.ID = "NET-002")).map (fun f => (f.Severity, f.Status)) =
        [if ((scanNS.filter (fun ns => ¬ isSystemNSNet ns ∧ pol ns ≠ [])).length : Rat) /
              ((scanNS.filter (fun ns => ¬ isSystemNSNet ns)).length : Rat) * 100 < 50 then
            (SeverityHigh, StatusFail)
          else if ((scanNS.filter (fun ns => ¬ isSystemNSNet ns ∧ pol ns ≠ [])).length : Rat) /
              ((scanNS.filter (fun ns => ¬ isSystemNSNet ns)).length : Rat) * 100 < 100 then
            (SeverityMedium, StatusWarning)
          else (SeverityInfo, StatusPass)]) ∧
    (((checkNamespaceCoverage ["dev", "prod"] indexOnlyDev 7).filter
        (fun f => f.ID = "NET-002")).map (fun f => (f.Severity, f.Status)) =
      [(SeverityMedium, StatusWarning)]) := by
  constructor
  · intro scanNS pol now h
    have htot := coverage_fold_totalCount scanNS pol now {}
    have hcov := coverage_fold_coveredCount scanNS pol now {}
    simp only [CoverageAcc.mk.injEq] at htot hcov
    have hids := coverage_fold_findings_id scanNS pol now {}
    simp only [checkNamespaceCoverage]
    rw [if_pos (by rw [htot]; simpa using h)]
    rw [List.filter_append]
    have hnil :
        (scanNS.foldl (coverageStep pol now) {}).findings.filter
          (fun f => decide (f.ID = "NET-002")) = [] := by
      apply List.filter_eq_nil_iff.mpr
      intro f hf
      rcases hids f hf with hmem | hid
      · simp at hmem
      · simp [hid]
    rw [hnil, htot, hcov]
    simp only [List.nil_append, List.filter_cons, List.filter_nil]
    split_ifs <;> (try simp_all) <;> (try (exfalso; linarith))
  · have hacc : (["dev", "prod"].foldl (coverageStep indexOnlyDev 7) {}) =
        { findings := [net001Finding "prod" 7],
          coveredCount := 1, totalCount := 2 } := by decide
    simp only [checkNamespaceCoverage, hacc]
    norm_num [net001Finding, SeverityHigh, SeverityMedium, SeverityInfo,
      StatusFail, StatusWarning, StatusPass]
    decide

/-- Witness for the general part of `coverage_bands_spec` at a concrete
input. -/
theorem coverage_bands_spec_witness :
    0 < ((["dev", "prod"].filter (fun ns => ¬ isSystemNSNet ns)).length) ∧
    ((checkNamespaceCoverage ["dev", "prod"] indexOnlyDev 7).filter
        (fun f => f.ID = "NET-002")).map (fun f => (f.Severity, f.Status)) =
      [if ((["dev", "prod"].filter
              (fun ns => ¬ isSystemNSNet ns ∧ indexOnlyDev ns ≠ [])).length : Rat) /
            ((["dev", "prod"].filter
              (fun ns => ¬ isSystemNSNet ns)).length : Rat) * 100 < 50 then
          (SeverityHigh, StatusFail)
        else if ((["dev", "prod"].filter
              (fun ns => ¬ isSystemNSNet ns ∧ indexOnlyDev ns ≠ [])).length : Rat) /
            ((["dev", "prod"].filter
              (fun ns => ¬ isSystemNSNet ns)).length : Rat) * 100 < 100 then
          (SeverityMedium, StatusWarning)
        else (SeverityInfo, StatusPass)] :=
  ⟨by decide, coverage_bands_spec.1 ["dev", "prod"] indexOnlyDev 7 (by decide)⟩

/-- C5 counterexample.  With zero user namespaces (here: only
`kube-system` in scope), `checkNamespaceCoverage` emits no findings at
all — in particular no 100%-coverage pass finding. -/
theorem coverage_zero_user_namespaces_counterexample :
    checkNamespaceCoverage ["kube-system"] (fun _ => []) 3 = [] := by
  decide

/-- C5 (amended).  When the scanned namespace set contains zero user
(non-system) namespaces, the namespace-coverage check returns no findings
whatsoever: the overall coverage finding is skipped (guarded by
`totalCount > 0`), rather than reported as a 100% pass. -/
theorem coverage_zero_user_namespaces_no_finding (scanNS : List String)
    (pol : String → List NetworkPolicy) (now : Nat)
    (h : ∀ ns ∈ scanNS, isSystemNSNet ns = true) :
    checkNamespaceCoverage scanNS pol now = [] := by
  simp only [checkNamespaceCoverage]
  rw [coverage_fold_system_id scanNS pol now {} h]
  rfl

/-- Witness for `coverage_zero_user_namespaces_no_finding` at a concrete
input. -/
theorem coverage_zero_user_namespaces_no_finding_witness :
    checkNamespaceCoverage ["kube-system", "kube-public"] indexOnlyDev 11 = [] :=
  coverage_zero_user_namespaces_no_finding ["kube-system", "kube-public"]
    indexOnlyDev 11 (by decide)

/-! ## Helper lemmas: default-deny classification -/

theorem policyTypeStep_denyIngr (sel : Bool) (p : NetworkPolicy)
    (info : namespacePolicyInfo) (pt : PolicyType) :
    ((policyTypeStep sel p info pt).defaultDenyIngr = true) ↔
      (info.defaultDenyIngr = true ∨
        (pt = PolicyTypeIngress ∧ sel = true ∧ goSliceLen p.Spec.Ingress = 0)) := by
  simp only [policyTypeStep]
  split_ifs <;> simp_all

theorem policyTypeStep_denyEgr (sel : Bool) (p : NetworkPolicy)
    (info : namespacePolicyInfo) (pt : PolicyType) :
    ((policyTypeStep sel p info pt).defaultDenyEgr = true) ↔
      (info.defaultDenyEgr = true ∨
        (pt = PolicyTypeEgress ∧ sel = true ∧ goSliceLen p.Spec.Egress = 0)) := by
  simp only [policyTypeStep]
  split_ifs <;> simp_all <;> tauto

theorem policyTypes_fold_denyIngr (pts : List PolicyType) (sel : Bool)
    (p : NetworkPolicy) (info : namespacePolicyInfo) :
    ((pts.foldl (policyTypeStep sel p) info).defaultDenyIngr = true) ↔
      (info.defaultDenyIngr = true ∨
        (PolicyTypeIngress ∈ pts ∧ sel = true ∧ goSliceLen p.Spec.Ingress = 0)) := by
  induction pts generalizing info with
  | nil => simp
  | cons pt pts ih =>
    rw [List.foldl_cons, ih, policyTypeStep_denyIngr]
    simp only [List.mem_cons]
    tauto

theorem policyTypes_fold_denyEgr (pts : List PolicyType) (sel : Bool)
    (p : NetworkPolicy) (info : namespacePolicyInfo) :
    ((pts.foldl (policyTypeStep sel p) info).defaultDenyEgr = true) ↔
      (info.defaultDenyEgr = true ∨
        (PolicyTypeEgress ∈ pts ∧ sel = true ∧ goSliceLen p.Spec.Egress = 0)) := by
  induction pts generalizing info with
  | nil => simp
  | cons pt pts ih =>
    rw [List.foldl_cons, ih, policyTypeStep_denyEgr]
    simp only [List.mem_cons]
    tauto

/-- The per-policy predicate the analyzer effectively tests for
default-deny-ingress. -/
theorem analyzePolicyStep_denyIngr (info : namespacePolicyInfo)
    (p : NetworkPolicy) :
    ((analyzePolicyStep info p).defaultDenyIngr = true) ↔
      (info.defaultDenyIngr = true ∨
        (p.Spec.PodSelector.MatchLabels = [] ∧
          p.Spec.PodSelector.MatchExpressions = [] ∧
          PolicyTypeIngress ∈ p.Spec.PolicyTypes ∧
          goSliceLen p.Spec.Ingress = 0)) := by
  simp only [analyzePolicyStep]
  have hproj : ∀ i : namespacePolicyInfo,
      ({ i with defaultDenyAll := true } : namespacePolicyInfo).defaultDenyIngr
        = i.defaultDenyIngr := fun _ => rfl
  split_ifs with h
  · rw [hproj, policyTypes_fold_denyIngr]
    simp only [List.length_eq_zero, decide_eq_true_eq]
    tauto
  · rw [policyTypes_fold_denyIngr]
    simp only [List.length_eq_zero, decide_eq_true_eq]
    tauto

theorem analyzePolicyStep_denyEgr (info : namespacePolicyInfo)
    (p : NetworkPolicy) :
    ((analyzePolicyStep info p).defaultDenyEgr = true) ↔
      (info.defaultDenyEgr = true ∨
        (p.Spec.PodSelector.MatchLabels = [] ∧
          p.Spec.PodSelector.MatchExpressions = [] ∧
          PolicyTypeEgress ∈ p.Spec.PolicyTypes ∧
          goSliceLen p.Spec.Egress = 0)) := by
  simp only [analyzePolicyStep]
  have hproj : ∀ i : namespacePolicyInfo,
      ({ i with defaultDenyAll := true } : namespacePolicyInfo).defaultDenyEgr
        = i.defaultDenyEgr := fun _ => rfl
  split_ifs with h
  · rw [hproj, policyTypes_fold_denyEgr]
    simp only [List.length_eq_zero, decide_eq_true_eq]
    tauto
  · rw [policyTypes_fold_denyEgr]
    simp only [List.length_eq_zero, decide_eq_true_eq]
    tauto

theorem analyze_fold_denyIngr (ps : List NetworkPolicy)
    (info : namespacePolicyInfo) :
    ((ps.foldl analyzePolicyStep info).defaultDenyIngr = true) ↔
      (info.defaultDenyIngr = true ∨
        ∃ p ∈ ps, p.Spec.PodSelector.MatchLabels = [] ∧
          p.Spec.PodSelector.MatchExpressions = [] ∧
          PolicyTypeIngress ∈ p.Spec.PolicyTypes ∧
          goSliceLen p.Spec.Ingress = 0) := by
  induction ps generalizing info with
  | nil => simp
  | cons p ps ih =>
    rw [List.foldl_cons, ih, analyzePolicyStep_denyIngr]
    constructor
    · rintro (⟨h | h⟩ | ⟨q, hq, h⟩)
      · exact Or.inl h
      · exact Or.inr ⟨p, by simp, h⟩
      · exact Or.inr ⟨q, by simp [hq], h⟩
    · rintro (h | ⟨q, hq, h⟩)
      · exact Or.inl (Or.inl h)
      · rcases List.mem_cons.mp hq with rfl | hq2
        · exact Or.inl (Or.inr h)
        · exact Or.inr ⟨q, hq2, h⟩

theorem analyze_fold_denyEgr (ps : List NetworkPolicy)
    (info : namespacePolicyInfo) :
    ((ps.foldl analyzePolicyStep info).defaultDenyEgr = true) ↔
      (info.defaultDenyEgr = true ∨
        ∃ p ∈ ps, p.Spec.PodSelector.MatchLabels = [] ∧
          p.Spec.PodSelector.MatchExpressions = [] ∧
          PolicyTypeEgress ∈ p.Spec.PolicyTypes ∧
          goSliceLen p.Spec.Egress = 0) := by
  induction ps generalizing info with
  | nil => simp
  | cons p ps ih =>
    rw [List.foldl_cons, ih, analyzePolicyStep_denyEgr]
    constructor
    · rintro (⟨h | h⟩ | ⟨q, hq, h⟩)
      · exact Or.inl h
      · exact Or.inr ⟨p, by simp, h⟩
      · exact Or.inr ⟨q, by simp [hq], h⟩
    · rintro (h | ⟨q, hq, h⟩)
      · exact Or.inl (Or.inl h)
      · rcases List.mem_cons.mp hq with rfl | hq2
        · exact Or.inl (Or.inr h)
        · exact Or.inr ⟨q, hq2, h⟩

/-! ## Claim theorems: default-deny classification -/

/-- C6 counterexample.  A policy whose ingress rule list is explicitly
present but empty (`some []`) is classified default-deny-ingress exactly
like one whose ingress field is absent (`none`): the code tests the Go
slice length, which cannot distinguish presence from absence.  This
refutes "no ingress field is present at all" / "classified differently". -/
theorem default_deny_empty_list_counterexample :
    (analyzeNamespacePolicies [emptyIngressListPolicy]).defaultDenyIngr = true ∧
    (analyzeNamespacePolicies [absentIngressPolicy]).defaultDenyIngr = true ∧
    emptyIngressListPolicy.Spec.Ingress = some [] ∧
    absentIngressPolicy.Spec.Ingress = none := by
  refine ⟨by decide, by decide, rfl, rfl⟩

/-- C6 (amended).  A namespace is classified default-deny-ingress iff some
policy has an empty pod selector (no match labels and no match
expressions), a policy-type list including Ingress, and an ingress rule
list of Go length zero — which holds both when the field is absent (nil)
and when it is present but empty; the two cases are classified the same
way.  Symmetric for egress. -/
theorem default_deny_classification_spec (policies : List NetworkPolicy) :
    ((analyzeNamespacePolicies policies).defaultDenyIngr = true ↔
      ∃ p ∈ policies, p.Spec.PodSelector.MatchLabels = [] ∧
        p.Spec.PodSelector.MatchExpressions = [] ∧
        PolicyTypeIngress ∈ p.Spec.PolicyTypes ∧
        goSliceLen p.Spec.Ingress = 0) ∧
    ((analyzeNamespacePolicies policies).defaultDenyEgr = true ↔
      ∃ p ∈ policies, p.Spec.PodSelector.MatchLabels = [] ∧
        p.Spec.PodSelector.MatchExpressions = [] ∧
        PolicyTypeEgress ∈ p.Spec.PolicyTypes ∧
        goSliceLen p.Spec.Egress = 0) := by
  constructor
  · rw [analyzeNamespacePolicies, analyze_fold_denyIngr]
    simp
  · rw [analyzeNamespacePolicies, analyze_fold_denyEgr]
    simp

/-! ## Helper lemmas: wildcard permissions -/

theorem length_filterMap_eq_length_filter {α β : Type} (f : α → Option β)
    (p : α → Bool) (l : List α) (h : ∀ a, (f a).isSome = p a) :
    (l.filterMap f).length = (l.filter p).length := by
  induction l with
  | nil => rfl
  | cons a l ih =>
    rw [List.filterMap_cons, List.filter_cons]
    have hp := h a
    cases hfa : f a with
    | none =>
      rw [hfa] at hp
      simp only [Option.isSome_none] at hp
      rw [← hp]
      simpa using ih
    | some b =>
      rw [hfa] at hp
      simp only [Option.isSome_some] at hp
      rw [← hp]
      simp [ih]

theorem clusterRoleWildcardFinding_isSome (now : Nat) (cr : ClusterRole) :
    (clusterRoleWildcardFinding now cr).isSome =
      (!(startsWithGo cr.Name "system:") &&
        cr.Rules.any (fun rule => hasWildcard rule.Verbs ||
          hasWildcard rule.Resources || hasWildcard rule.APIGroups)) := by
  simp only [clusterRoleWildcardFinding]
  split_ifs with h
  · simp [h]
  · cases hf : cr.Rules.find? (fun rule => hasWildcard rule.Verbs ||
        hasWildcard rule.Resources || hasWildcard rule.APIGroups) with
    | none =>
      have hany : cr.Rules.any (fun rule => hasWildcard rule.Verbs ||
          hasWildcard rule.Resources || hasWildcard rule.APIGroups) = false := by
        rw [← Bool.not_eq_true, List.any_eq_true]
        rintro ⟨rule, hmem, hrule⟩
        exact absurd hrule (by simpa using List.find?_eq_none.mp hf rule hmem)
      simp [h, hany]
    | some rule =>
      have hany : cr.Rules.any (fun rule => hasWildcard rule.Verbs ||
          hasWildcard rule.Resources || hasWildcard rule.APIGroups) = true :=
        List.any_eq_true.mpr ⟨rule, List.mem_of_find?_eq_some hf,
          by simpa using List.find?_some hf⟩
      simp [h, hany]

theorem roleWildcardFinding_isSome (now : Nat) (r : Role) :
    (roleWildcardFinding now r).isSome =
      (!(startsWithGo r.Name "system:") &&
        r.Rules.any (fun rule => hasWildcard rule.Verbs ||
          hasWildcard rule.Resources)) := by
  simp only [roleWildcardFinding]
  split_ifs with h
  · simp [h]
  · cases hf : r.Rules.find? (fun rule => hasWildcard rule.Verbs ||
        hasWildcard rule.Resources) with
    | none =>
      have hany : r.Rules.any (fun rule => hasWildcard rule.Verbs ||
          hasWildcard rule.Resources) = false := by
        rw [← Bool.not_eq_true, List.any_eq_true]
        rintro ⟨rule, hmem, hrule⟩
        exact absurd hrule (by simpa using List.find?_eq_none.mp hf rule hmem)
      simp [h, hany]
    | some rule =>
      have hany : r.Rules.any (fun rule => hasWildcard rule.Verbs ||
          hasWildcard rule.Resources) = true :=
        List.any_eq_true.mpr ⟨rule, List.mem_of_find?_eq_some hf,
          by simpa using List.find?_some hf⟩
      simp [h, hany]

/-! ## Claim theorems: wildcard permissions -/

/-- C7 counterexample.  A namespaced Role (not `system:`-prefixed) whose
only wildcard sits in its API-groups list yields no finding: the Role loop
tests only verbs and resources, unlike the ClusterRole loop. -/
theorem role_apigroup_wildcard_counterexample :
    checkWildcardPermissions [] [apiGroupWildcardRole] 5 = [] ∧
    startsWithGo apiGroupWildcardRole.Name "system:" = false ∧
    apiGroupWildcardRole.Rules.any (fun rule => hasWildcard rule.APIGroups)
      = true := by
  refine ⟨by decide, by decide, by decide⟩

/-- C7 (amended).  Per non-`system:` ClusterRole, exactly one finding is
produced iff some rule has `*` in verbs, resources, or API groups (the
first matching rule short-circuits); per non-`system:` namespaced Role,
exactly one finding is produced iff some rule has `*` in verbs or
resources — the API-groups list is not consulted for namespaced Roles.
Concretely, a ClusterRole with two wildcarded rules yields one finding,
not two. -/
theorem wildcard_findings_count_spec :
    (∀ (clusterRoles : List ClusterRole) (roles : List Role) (now : Nat),
      (checkWildcardPermissions clusterRoles roles now).length =
        (clusterRoles.filter (fun cr => !(startsWithGo cr.Name "system:") &&
          cr.Rules.any (fun rule => hasWildcard rule.Verbs ||
            hasWildcard rule.Resources || hasWildcard rule.APIGroups))).length +
        (roles.filter (fun r => !(startsWithGo r.Name "system:") &&
          r.Rules.any (fun rule => hasWildcard rule.Verbs ||
            hasWildcard rule.Resources))).length) ∧
    (checkWildcardPermissions [doubleWildcardClusterRole] [] 5).length = 1 := by
  constructor
  · intro clusterRoles roles now
    simp only [checkWildcardPermissions, List.length_append]
    rw [length_filterMap_eq_length_filter (clusterRoleWildcardFinding now) _
        clusterRoles (clusterRoleWildcardFinding_isSome now),
      length_filterMap_eq_length_filter (roleWildcardFinding now) _
        roles (roleWildcardFinding_isSome now)]
  · decide

/-! ## Claim theorems: policy engine loading and violation parsing -/

/-- C8 counterexample.  `LoadFromDirectory` performs no syntax validation:
a malformed `.rego` file is stored in the module table and the load
succeeds, instead of failing that source with a compile error at load
time. -/
theorem load_directory_no_validation_counterexample :
    LoadFromDirectory []
        { entries := [{ path := "bad.rego", read := .ok malformedRego }] } =
      .ok [("bad", malformedRego)] ∧
    malformedRego.wellFormed = false := by
  constructor
  · rfl
  · rfl

/-- C8 (amended).  Only `LoadInlinePolicy` validates Rego syntax eagerly:
a malformed inline source fails with a compile error (and, the function
being pure here, the caller's module table is untouched, so other loaded
sources remain usable), while a well-formed inline source is stored.
`LoadFromDirectory` stores `.rego` sources with no syntax validation at
all, well-formed or not. -/
theorem load_validation_spec :
    (∀ (mods : ModuleTable) (name : String) (src : RegoSource),
      src.wellFormed = false →
        LoadInlinePolicy mods name src =
          .error ("invalid rego in policy " ++ name)) ∧
    (∀ (mods : ModuleTable) (name : String) (src : RegoSource),
      src.wellFormed = true →
        LoadInlinePolicy mods name src = .ok (tableInsert mods name src)) ∧
    (∀ (mods : ModuleTable) (p : String) (src : RegoSource),
      endsWithGo p ".rego" = true → endsWithGo p "_test.rego" = false →
        LoadFromDirectory mods
            { entries := [{ path := p, read := .ok src }] } =
          .ok (tableInsert mods (moduleNameOf p) src)) := by
  refine ⟨?_, ?_, ?_⟩
  · intro mods name src h
    simp [LoadInlinePolicy, h]
  · intro mods name src h
    simp [LoadInlinePolicy, h]
  · intro mods p src h1 h2
    simp [LoadFromDirectory, walkEntries, h1, h2]

/-- Witness for `load_validation_spec` at concrete inputs. -/
theorem load_validation_spec_witness :
    malformedRego.wellFormed = false ∧
    LoadInlinePolicy [] "bad" malformedRego =
      .error ("invalid rego in policy " ++ "bad") ∧
    LoadInlinePolicy [] "good" {} = .ok (tableInsert [] "good" {}) ∧
    LoadFromDirectory [] { entries := [{ path := "ok.rego", read := .ok {} }] }
      = .ok (tableInsert [] (moduleNameOf "ok.rego") {}) :=
  ⟨rfl, load_validation_spec.1 [] "bad" malformedRego rfl,
    load_validation_spec.2.1 [] "good" {} rfl,
    load_validation_spec.2.2 [] "ok.rego" {} (by decide) (by decide)⟩

/-- C9.  A violation object with no `severity` field parses to a check
result with severity medium (and `Passed = false`), whose converted
Finding is a failed medium-severity finding; a bare-string violation
parses to a failed medium-severity result with the generic title
"Policy Violation". -/
theorem parseViolation_default_severity :
    (∀ fields : List (String × GoVal), fields.lookup "severity" = none →
      ∃ cr : CheckResult, parseViolation (.obj fields) = .ok cr ∧
        cr.Severity = SeverityMedium ∧ cr.Passed = false ∧
        cr.ToFinding.Severity = SeverityMedium ∧
        cr.ToFinding.Status = StatusFail) ∧
    (∀ s : String,
      parseViolation (.str s) = .ok (bareStringResult s) ∧
      (bareStringResult s).Severity = SeverityMedium ∧
      (bareStringResult s).Passed = false ∧
      (bareStringResult s).ToFinding.Severity = SeverityMedium ∧
      (bareStringResult s).ToFinding.Status = StatusFail ∧
      (bareStringResult s).ToFinding.Title = "Policy Violation") := by
  constructor
  · intro fields h
    have hsev : objLookupStr fields "severity" = none := by
      simp [objLookupStr, h]
    rcases h1 : objLookupStr fields "id" with _ | v1 <;>
    rcases h2 : objLookupStr fields "title" with _ | v2 <;>
    rcases h3 : objLookupStr fields "msg" with _ | v3 <;>
    rcases h4 : objLookupStr fields "description" with _ | v4 <;>
    rcases h5 : objLookupStr fields "resource" with _ | v5 <;>
    rcases h6 : objLookupStr fields "namespace" with _ | v6 <;>
    rcases h7 : objLookupStr fields "remediation" with _ | v7 <;>
    rcases h8 : objLookupStr fields "category" with _ | v8 <;>
      (simp only [parseViolation, hsev, h1, h2, h3, h4, h5, h6, h7, h8]
       exact ⟨_, rfl, rfl, rfl, rfl, rfl⟩)
  · intro s
    exact ⟨rfl, rfl, rfl, rfl, rfl, rfl⟩

/-- Witness for `parseViolation_default_severity` at concrete inputs. -/
theorem parseViolation_default_severity_witness :
    ([("msg", GoVal.str "boom")] : List (String × GoVal)).lookup "severity"
      = none ∧
    (∃ cr : CheckResult,
      parseViolation (.obj [("msg", GoVal.str "boom")]) = .ok cr ∧
      cr.Severity = SeverityMedium ∧ cr.Passed = false ∧
      cr.ToFinding.Severity = SeverityMedium ∧
      cr.ToFinding.Status = StatusFail) ∧
    parseViolation (.str "oops") = .ok (bareStringResult "oops") :=
  ⟨rfl, parseViolation_default_severity.1 [("msg", GoVal.str "boom")] rfl,
    (parseViolation_default_severity.2 "oops").1⟩

/-! ## Claim theorems: scanner orchestrator -/

/-- C3 counterexample.  With an unknown scan type ("bogus") the run does
fail, but only after performing I/O: the trace already contains the
namespace-resolution call and the extra rule-source load before the
error is returned — refuting "fails before any I/O". -/
theorem run_unknown_type_counterexample :
    (ScannerRun bogusRunEnv bogusRunConfig).1 =
      [Ev.resolveNamespaces, Ev.loadPolicyDir "extra"] ∧
    exceptIsError (ScannerRun bogusRunEnv bogusRunConfig).2 = true := by
  constructor
  · rfl
  · rfl

/-- C3 (amended).  For a scan type outside {full, cis, rbac, network,
pss}, `Run` fails with a configuration error — but only after resolving
namespaces and best-effort-loading the extra rule sources; it fails
before dispatching any check work (the trace holds exactly the
resolution call and the policy-path loads, no listing/evaluation/analyzer
calls). -/
theorem run_unknown_type_fails_after_setup (env : ScanEnv)
    (config : ScanConfig) (ns : List String)
    (hty : config.ScanType ∉ (["full", "cis", "rbac", "network", "pss"] :
      List String))
    (hres : env.namespacesForScan config.Namespaces false = .ok ns) :
    (ScannerRun env config).2 =
      .error ("unknown scan type: \"" ++ config.ScanType ++
        "\" (valid: full, cis, rbac, network, pss)") ∧
    (ScannerRun env config).1 =
      Ev.resolveNamespaces ::
        (match env.policyEvaluator with
          | none => []
          | some _ => config.PolicyPaths.map Ev.loadPolicyDir) := by
  have h1 : config.ScanType ≠ "full" := fun h => hty (by simp [h])
  have h2 : config.ScanType ≠ "cis" := fun h => hty (by simp [h])
  have h3 : config.ScanType ≠ "rbac" := fun h => hty (by simp [h])
  have h4 : config.ScanType ≠ "network" := fun h => hty (by simp [h])
  have h5 : config.ScanType ≠ "pss" := fun h => hty (by simp [h])
  cases hpe : env.policyEvaluator with
  | none =>
      constructor
      · simp [ScannerRun, hres, hpe, h1, h2, h3, h4, h5]
      · simp [ScannerRun, hres, hpe, h1, h2, h3, h4, h5]
  | some pe =>
      constructor
      · simp [ScannerRun, hres, hpe, h1, h2, h3, h4, h5]
      · simp [ScannerRun, hres, hpe, h1, h2, h3, h4, h5]

/-- Witness for `run_unknown_type_fails_after_setup` at a concrete
input. -/
theorem run_unknown_type_fails_after_setup_witness :
    bogusRunConfig.ScanType ∉ (["full", "cis", "rbac", "network", "pss"] :
      List String) ∧
    ((ScannerRun bogusRunEnv bogusRunConfig).2 =
      .error ("unknown scan type: \"" ++ bogusRunConfig.ScanType ++
        "\" (valid: full, cis, rbac, network, pss)") ∧
    (ScannerRun bogusRunEnv bogusRunConfig).1 =
      Ev.resolveNamespaces ::
        (match bogusRunEnv.policyEvaluator with
          | none => []
          | some _ => bogusRunConfig.PolicyPaths.map Ev.loadPolicyDir)) :=
  ⟨by decide, run_unknown_type_fails_after_setup bogusRunEnv bogusRunConfig
    ["default"] (by decide) rfl⟩

end KubeComply
